import Mathlib

/-
  Shallow embedding of the object-lifetime validation core of
  src/layers/object_lifetime_validation.h (namespace object_tracker).

  Modelling conventions:
  * Vulkan handles are modelled as natural numbers; VK_NULL_HANDLE is 0
    (HandleToUint64 is the identity of this encoding).
  * unordered_map<uint64_t, T> is modelled as an association list
    List (Nat × T) with first-match lookup (assocFind), assignment
    (assocInsert) and erasure of the found entry (assocErase).
  * log_msg appends a Diagnostic (severity flag, string code, handle) and
    returns the configured suppress verdict of the debug_report_data for
    that (flag, code); message formatting is out of scope.
  * An ObjTrackState's status bitmask is reduced to the only bit the code
    reads, OBJSTATUS_CUSTOM_ALLOCATOR, modelled as the Boolean status.
  * layer_data_map (the process-wide owner set) is an association list
    from dispatch keys to layer_data; GetLayerDataPtr default-constructs
    and inserts an entry when the key is absent, as the C++ accessor does.
    C++ pointer disequality between entries of the map is key disequality.
  * The C++ functions return their value and mutate nothing except through
    GetLayerDataPtr; state-threading makes this explicit: ValidateObject
    and ValidateDestroyObjectW return the (possibly extended) owner map.
  * assert(...) failures (DestroyObjectSilently) are modelled as Option
    none: a returned some is an execution that passed every assertion.
-/

namespace object_tracker

/-- The object-category enumeration (vk_object_types.h).  Only the
distinguished members that object_lifetime_validation.h names are needed;
a representative sample of the remaining categories keeps the set
non-degenerate. -/
inductive VulkanObjectType where
  | kVulkanObjectTypeUnknown
  | kVulkanObjectTypeInstance
  | kVulkanObjectTypePhysicalDevice
  | kVulkanObjectTypeDevice
  | kVulkanObjectTypeQueue
  | kVulkanObjectTypeCommandBuffer
  | kVulkanObjectTypeImage
  | kVulkanObjectTypeSwapchainKHR
  | kVulkanObjectTypeSurfaceKHR
  | kVulkanObjectTypeDescriptorSet
  | kVulkanObjectTypeCommandPool
deriving DecidableEq, Fintype

open VulkanObjectType

/-- VK_NULL_HANDLE, the reserved null handle value. -/
def VK_NULL_HANDLE : Nat := 0

/-- Severity flag of an emitted message (VK_DEBUG_REPORT_*_BIT_EXT). -/
inductive VkDebugReportFlag where
  | information
  | error
deriving DecidableEq

/-- The sentinel code meaning "no VUID assigned / check disabled". -/
def kVUIDUndefined : String := "VUID_Undefined"

def kVUID_ObjectTracker_Info : String := "UNASSIGNED-ObjectTracker-Info"

def kVUID_ObjectTracker_InternalError : String := "UNASSIGNED-ObjectTracker-InternalError"

def kVUID_ObjectTracker_ObjectLeak : String := "UNASSIGNED-ObjectTracker-ObjectLeak"

def kVUID_ObjectTracker_UnknownObject : String := "UNASSIGNED-ObjectTracker-UnknownObject"

/-- One message handed to the diagnostic sink: severity, stable string
code, and the handle it concerns. -/
structure Diagnostic where
  flag : VkDebugReportFlag
  code : String
  handle : Nat
deriving DecidableEq

/-- The diagnostic sink configuration: for every (severity, code) the
Boolean log_msg returns, instructing the caller whether to skip the
underlying real operation. -/
structure debug_report_data where
  verdict : VkDebugReportFlag → String → Bool

/-- log_msg: emits one diagnostic and returns the sink's suppress
verdict for it. -/
def log_msg (rd : debug_report_data) (flag : VkDebugReportFlag) (code : String)
    (object_handle : Nat) : Bool × Diagnostic :=
  (rd.verdict flag code, ⟨flag, code, object_handle⟩)

/-- First-match lookup in an association list (unordered_map::find). -/
def assocFind {α : Type} : List (Nat × α) → Nat → Option α
  | [], _ => none
  | (k, v) :: rest, key => if k = key then some v else assocFind rest key

/-- Assignment m[key] = v (replaces the entry if present, appends it
otherwise). -/
def assocInsert {α : Type} : List (Nat × α) → Nat → α → List (Nat × α)
  | [], key, v => [(key, v)]
  | (k, w) :: rest, key, v =>
      if k = key then (key, v) :: rest else (k, w) :: assocInsert rest key v

/-- Erasure of the found entry (unordered_map::erase of the iterator
returned by find). -/
def assocErase {α : Type} : List (Nat × α) → Nat → List (Nat × α)
  | [], _ => []
  | (k, w) :: rest, key => if k = key then rest else (k, w) :: assocErase rest key

/-- ObjTrackState: the per-object record.  status is the
OBJSTATUS_CUSTOM_ALLOCATOR bit (true ↔ created with a custom allocator). -/
structure ObjTrackState where
  object_type : VulkanObjectType
  status : Bool
  handle : Nat
deriving DecidableEq

/-- The object_lifetime data of one owner context: the per-category
registry buckets, the swapchain-image alias map, and the two running
counters. -/
structure ObjectLifetime where
  object_map : VulkanObjectType → List (Nat × ObjTrackState)
  swapchainImageMap : List (Nat × ObjTrackState)
  num_objects : VulkanObjectType → Nat
  num_total_objects : Nat

/-- One entry of layer_data_map: the diagnostic sink configuration and
the object-lifetime data of one owner. -/
structure layer_data where
  report_data : debug_report_data
  objdata : ObjectLifetime

/-- The process-wide owner set layer_data_map, keyed by dispatch key. -/
abbrev World : Type := List (Nat × layer_data)

def emptyObjectLifetime : ObjectLifetime :=
  ⟨fun _ => [], [], fun _ => 0, 0⟩

def defaultLayerData : layer_data :=
  ⟨⟨fun _ _ => false⟩, emptyObjectLifetime⟩

/-- GetLayerDataPtr: resolves a dispatch key to its layer_data,
default-constructing and inserting a fresh entry when the key is not yet
in the map. -/
def GetLayerDataPtr (m : World) (key : Nat) : World × layer_data :=
  match assocFind m key with
  | some dd => (m, dd)
  | none => (m ++ [(key, defaultLayerData)], defaultLayerData)

/-- Modelled from the spec: the body of ValidateDeviceObject is only
declared in src/layers/object_lifetime_validation.h (line 70); spec
section 4.2: "a distinguished category representing the owner itself
(device) is validated through a dedicated fast path, not the general
registry scan, since an owner is never stored inside its own registry".
The model scans the owner set for a device record with this handle and
reports the invalid-handle code when none is found. -/
def ValidateDeviceObject (w : World) (device_handle : Nat)
    (invalid_handle_code : String) : Bool × List Diagnostic :=
  if w.any (fun p =>
      (assocFind (p.2.objdata.object_map kVulkanObjectTypeDevice) device_handle).isSome) then
    (false, [])
  else
    match w with
    | [] => (false, [⟨VkDebugReportFlag.error, invalid_handle_code, device_handle⟩])
    | p :: _ =>
        let r := log_msg p.2.report_data VkDebugReportFlag.error invalid_handle_code device_handle
        (r.1, [r.2])

/-- The loop over layer_data_map inside ValidateObject (lines 93-112):
successive other owners are examined, skipping the expected owner itself
(pointer disequality = key disequality); at the first other owner holding
the handle the wrong-device branch decides the result, and when no owner
holds it the invalid-handle diagnostic is emitted. -/
def scanOtherOwners (rd : debug_report_data) (device_key object_handle : Nat)
    (object_type : VulkanObjectType)
    (invalid_handle_code wrong_device_code : String) :
    World → Bool × List Diagnostic
  | [] =>
      let r := log_msg rd VkDebugReportFlag.error invalid_handle_code object_handle
      (r.1, [r.2])
  | p :: rest =>
      if p.1 ≠ device_key ∧
          ((assocFind (p.2.objdata.object_map object_type) object_handle).isSome = true ∨
            (object_type = kVulkanObjectTypeImage ∧
              (assocFind p.2.objdata.swapchainImageMap object_handle).isSome = true)) then
        if wrong_device_code ≠ kVUIDUndefined ∧ object_type ≠ kVulkanObjectTypeSurfaceKHR then
          let r := log_msg rd VkDebugReportFlag.error wrong_device_code object_handle
          (r.1, [r.2])
        else
          (false, [])
      else
        scanOtherOwners rd device_key object_handle object_type
          invalid_handle_code wrong_device_code rest

/-- ValidateObject (lines 72-119), with the owner set threaded
explicitly: the only state effect is the possible default-construction
performed by GetLayerDataPtr. -/
def ValidateObject (w : World) (dispatch_key object : Nat)
    (object_type : VulkanObjectType) (null_allowed : Bool)
    (invalid_handle_code wrong_device_code : String) :
    World × Bool × List Diagnostic :=
  if null_allowed = true ∧ object = VK_NULL_HANDLE then
    (w, false, [])
  else if object_type = kVulkanObjectTypeDevice then
    let r := ValidateDeviceObject w object invalid_handle_code
    (w, r.1, r.2)
  else
    let resolved := GetLayerDataPtr w dispatch_key
    let w1 := resolved.1
    let device_data := resolved.2
    if (assocFind (device_data.objdata.object_map object_type) object).isSome = true then
      (w1, false, [])
    else if object_type = kVulkanObjectTypeImage ∧
        (assocFind device_data.objdata.swapchainImageMap object).isSome = true then
      (w1, false, [])
    else
      let r := scanOtherOwners device_data.report_data dispatch_key object object_type
        invalid_handle_code wrong_device_code w1
      (w1, r.1, r.2)

/-- CreateObject (lines 147-170), acting on one owner's data. -/
def CreateObject (report_data : debug_report_data) (obj_data : ObjectLifetime)
    (object : Nat) (object_type : VulkanObjectType) (custom_allocator : Bool) :
    ObjectLifetime × List Diagnostic :=
  if (assocFind (obj_data.object_map object_type) object).isSome = true then
    (obj_data, [])
  else
    let r := log_msg report_data VkDebugReportFlag.information kVUID_ObjectTracker_Info object
    let pNewObjNode : ObjTrackState := ⟨object_type, custom_allocator, object⟩
    ({ obj_data with
        object_map := Function.update obj_data.object_map object_type
          (assocInsert (obj_data.object_map object_type) object pNewObjNode),
        num_objects := Function.update obj_data.num_objects object_type
          (obj_data.num_objects object_type + 1),
        num_total_objects := obj_data.num_total_objects + 1 },
      [r.2])

/-- DestroyObjectSilently (lines 172-192).  Option none models a failed
assert (internal-consistency abort); some is the updated owner data. -/
def DestroyObjectSilently (obj_data : ObjectLifetime) (object : Nat)
    (object_type : VulkanObjectType) : Option ObjectLifetime :=
  if object = VK_NULL_HANDLE then none
  else
    match assocFind (obj_data.object_map object_type) object with
    | none => none
    | some pNode =>
        if obj_data.num_total_objects = 0 then none
        else
          let od1 := { obj_data with num_total_objects := obj_data.num_total_objects - 1 }
          if od1.num_objects pNode.object_type = 0 then none
          else
            some { od1 with
              num_objects := Function.update od1.num_objects pNode.object_type
                (od1.num_objects pNode.object_type - 1),
              object_map := Function.update od1.object_map object_type
                (assocErase (od1.object_map object_type) object) }

/-- ValidateDestroyObject (lines 194-233), acting on one owner's data. -/
def ValidateDestroyObject (report_data : debug_report_data)
    (obj_data : ObjectLifetime) (object : Nat) (object_type : VulkanObjectType)
    (custom_allocator : Bool)
    (expected_custom_allocator_code expected_default_allocator_code : String) :
    Bool × List Diagnostic :=
  if object ≠ VK_NULL_HANDLE then
    match assocFind (obj_data.object_map object_type) object with
    | some pNode =>
        let r0 := log_msg report_data VkDebugReportFlag.information kVUID_ObjectTracker_Info object
        let allocated_with_custom := pNode.status
        if allocated_with_custom = true ∧ custom_allocator = false ∧
            expected_custom_allocator_code ≠ kVUIDUndefined then
          let r1 := log_msg report_data VkDebugReportFlag.error
            expected_custom_allocator_code object
          (r0.1 || r1.1, [r0.2, r1.2])
        else if allocated_with_custom = false ∧ custom_allocator = true ∧
            expected_default_allocator_code ≠ kVUIDUndefined then
          let r1 := log_msg report_data VkDebugReportFlag.error
            expected_default_allocator_code object
          (r0.1 || r1.1, [r0.2, r1.2])
        else
          (r0.1, [r0.2])
    | none => (false, [])
  else (false, [])

/-- ValidateDestroyObject at the owner-set level: GetDebugReportData and
GetObjLifetimeData both resolve the dispatch key through GetLayerDataPtr
(the first call may default-construct the entry, the second then finds
it), after which the function only reads. -/
def ValidateDestroyObjectW (w : World) (dispatch_key object : Nat)
    (object_type : VulkanObjectType) (custom_allocator : Bool)
    (expected_custom_allocator_code expected_default_allocator_code : String) :
    World × Bool × List Diagnostic :=
  let resolved := GetLayerDataPtr w dispatch_key
  let r := ValidateDestroyObject resolved.2.report_data resolved.2.objdata object
    object_type custom_allocator expected_custom_allocator_code
    expected_default_allocator_code
  (resolved.1, r.1, r.2)

/-- RecordDestroyObject (lines 235-247). -/
def RecordDestroyObject (obj_data : ObjectLifetime) (object : Nat)
    (object_type : VulkanObjectType) : Option ObjectLifetime :=
  if object ≠ VK_NULL_HANDLE then
    match assocFind (obj_data.object_map object_type) object with
    | some _ => DestroyObjectSilently obj_data object object_type
    | none => some obj_data
  else some obj_data

/-- The counter part of the registry invariant (spec section 3): each
per-category count equals its bucket size, and the total equals the sum
of the per-category counts. -/
def counts_consistent (od : ObjectLifetime) : Prop :=
  (∀ t : VulkanObjectType, od.num_objects t = (od.object_map t).length) ∧
    od.num_total_objects = ∑ t : VulkanObjectType, od.num_objects t

/-- The record-typing part of the registry invariant: every record filed
in bucket t carries object_type t (CreateObject only files records this
way). -/
def record_types_consistent (od : ObjectLifetime) : Prop :=
  ∀ t : VulkanObjectType, ∀ p ∈ od.object_map t, (p : Nat × ObjTrackState).2.object_type = t

/- ===== Concrete states used to evaluate the functions ===== -/

/-- A sink configured to request suppression for every message. -/
def rdTrue : debug_report_data := ⟨fun _ _ => true⟩

/-- A sink configured to never request suppression. -/
def rdFalse : debug_report_data := ⟨fun _ _ => false⟩

/-- An image record created with a custom allocator, handle 7. -/
def sampleNode : ObjTrackState := ⟨kVulkanObjectTypeImage, true, 7⟩

/-- An owner holding exactly the image record sampleNode. -/
def sampleOL : ObjectLifetime :=
  ⟨fun t => if t = kVulkanObjectTypeImage then [(7, sampleNode)] else [], [],
    fun t => if t = kVulkanObjectTypeImage then 1 else 0, 1⟩

/-- An image record whose handle is the null sentinel. -/
def nullNode : ObjTrackState := ⟨kVulkanObjectTypeImage, true, 0⟩

/-- An owner whose registry holds a record keyed by the null handle. -/
def nullRecordOL : ObjectLifetime :=
  ⟨fun t => if t = kVulkanObjectTypeImage then [(0, nullNode)] else [], [],
    fun t => if t = kVulkanObjectTypeImage then 1 else 0, 1⟩

/-- A queue record under the default allocator, handle 7. -/
def queueNode : ObjTrackState := ⟨kVulkanObjectTypeQueue, false, 7⟩

/-- An owner holding exactly the queue record queueNode. -/
def otherOL : ObjectLifetime :=
  ⟨fun t => if t = kVulkanObjectTypeQueue then [(7, queueNode)] else [], [],
    fun t => if t = kVulkanObjectTypeQueue then 1 else 0, 1⟩

/-- An image record under the default allocator, handle 7. -/
def imageNodeOther : ObjTrackState := ⟨kVulkanObjectTypeImage, false, 7⟩

/-- An owner holding exactly the image record imageNodeOther. -/
def otherImageOL : ObjectLifetime :=
  ⟨fun t => if t = kVulkanObjectTypeImage then [(7, imageNodeOther)] else [], [],
    fun t => if t = kVulkanObjectTypeImage then 1 else 0, 1⟩

/-- An owner whose swapchain-image alias map (and nothing else) holds
handle 7. -/
def swapOL : ObjectLifetime := ⟨fun _ => [], [(7, sampleNode)], fun _ => 0, 0⟩

def ldEmptyTrue : layer_data := ⟨rdTrue, emptyObjectLifetime⟩

def ldEmptyFalse : layer_data := ⟨rdFalse, emptyObjectLifetime⟩

def ldOther : layer_data := ⟨rdTrue, otherOL⟩

def ldOtherImage : layer_data := ⟨rdTrue, otherImageOL⟩

def ldSwap : layer_data := ⟨rdTrue, swapOL⟩

/-- One empty owner that never suppresses. -/
def w0 : World := [(1, ldEmptyFalse)]

/-- An empty owner 1 next to an owner 2 holding queue handle 7. -/
def w1 : World := [(1, ldEmptyTrue), (2, ldOther)]

/-- Owner 1 aliasing image 7 in its swapchain map, owner 2 owning image 7. -/
def w2 : World := [(1, ldSwap), (2, ldOtherImage)]

/-- Just the aliasing owner 1. -/
def w3 : World := [(1, ldSwap)]

/-- Just the empty owner 1 (suppressing sink). -/
def w4 : World := [(1, ldEmptyTrue)]

/- ===== Association-list lemmas ===== -/

theorem assocFind_append_of_isSome {α : Type} {m m' : List (Nat × α)} {key : Nat}
    (h : (assocFind m key).isSome = true) : assocFind (m ++ m') key = assocFind m key := by
  induction m with
  | nil => simp [assocFind] at h
  | cons p rest ih =>
      obtain ⟨k, v⟩ := p
      by_cases hk : k = key
      · simp [assocFind, hk]
      · simp only [assocFind, if_neg hk] at h ⊢
        exact ih h

theorem assocFind_mem {α : Type} {m : List (Nat × α)} {key : Nat} {v : α}
    (h : assocFind m key = some v) : (key, v) ∈ m := by
  induction m with
  | nil => simp [assocFind] at h
  | cons p rest ih =>
      obtain ⟨k, w⟩ := p
      by_cases hk : k = key
      · simp only [assocFind, if_pos hk] at h
        subst hk
        obtain rfl : w = v := Option.some.inj h
        exact List.mem_cons_self _ _
      · simp only [assocFind, if_neg hk] at h
        exact List.mem_cons_of_mem _ (ih h)

theorem length_assocInsert_of_none {α : Type} {m : List (Nat × α)} {key : Nat} (v : α)
    (h : assocFind m key = none) : (assocInsert m key v).length = m.length + 1 := by
  induction m with
  | nil => simp [assocInsert]
  | cons p rest ih =>
      obtain ⟨k, w⟩ := p
      by_cases hk : k = key
      · simp [assocFind, if_pos hk] at h
      · simp only [assocFind, if_neg hk] at h
        simp [assocInsert, if_neg hk, ih h]

theorem assocFind_assocInsert_self {α : Type} (m : List (Nat × α)) (key : Nat) (v : α) :
    assocFind (assocInsert m key v) key = some v := by
  induction m with
  | nil => simp [assocInsert, assocFind]
  | cons p rest ih =>
      obtain ⟨k, w⟩ := p
      by_cases hk : k = key
      · simp [assocInsert, if_pos hk, assocFind]
      · simp [assocInsert, if_neg hk, assocFind, hk, ih]

theorem assocFind_assocInsert_ne {α : Type} (m : List (Nat × α)) {key key' : Nat} (v : α)
    (h : key' ≠ key) : assocFind (assocInsert m key v) key' = assocFind m key' := by
  induction m with
  | nil => simp [assocInsert, assocFind, Ne.symm h]
  | cons p rest ih =>
      obtain ⟨k, w⟩ := p
      by_cases hk : k = key
      · subst hk
        simp [assocInsert, assocFind, Ne.symm h]
      · simp only [assocInsert, if_neg hk, assocFind]
        by_cases hk' : k = key'
        · simp [hk']
        · simp [hk', ih]

theorem mem_assocInsert {α : Type} {m : List (Nat × α)} {key : Nat} {v : α}
    {p : Nat × α} (h : p ∈ assocInsert m key v) : p ∈ m ∨ p = (key, v) := by
  induction m with
  | nil => simp [assocInsert] at h; simp [h]
  | cons q rest ih =>
      obtain ⟨k, w⟩ := q
      by_cases hk : k = key
      · simp only [assocInsert, if_pos hk] at h
        rcases List.mem_cons.mp h with h1 | h1
        · exact Or.inr h1
        · exact Or.inl (List.mem_cons_of_mem _ h1)
      · simp only [assocInsert, if_neg hk] at h
        rcases List.mem_cons.mp h with h1 | h1
        · exact Or.inl (h1 ▸ List.mem_cons_self _ _)
        · rcases ih h1 with h2 | h2
          · exact Or.inl (List.mem_cons_of_mem _ h2)
          · exact Or.inr h2

theorem length_assocErase_add_one {α : Type} {m : List (Nat × α)} {key : Nat} {v : α}
    (h : assocFind m key = some v) : (assocErase m key).length + 1 = m.length := by
  induction m with
  | nil => simp [assocFind] at h
  | cons p rest ih =>
      obtain ⟨k, w⟩ := p
      by_cases hk : k = key
      · simp [assocErase, if_pos hk]
      · simp only [assocFind, if_neg hk] at h
        simp [assocErase, if_neg hk, ih h]

theorem mem_assocErase {α : Type} {m : List (Nat × α)} {key : Nat} {p : Nat × α}
    (h : p ∈ assocErase m key) : p ∈ m := by
  induction m with
  | nil => simp [assocErase] at h
  | cons q rest ih =>
      obtain ⟨k, w⟩ := q
      by_cases hk : k = key
      · simp only [assocErase, if_pos hk] at h
        exact List.mem_cons_of_mem _ h
      · simp only [assocErase, if_neg hk] at h
        rcases List.mem_cons.mp h with h1 | h1
        · exact h1 ▸ List.mem_cons_self _ _
        · exact List.mem_cons_of_mem _ (ih h1)

/- ===== Counter-sum lemma ===== -/

theorem sum_update_add (f : VulkanObjectType → Nat) (t : VulkanObjectType) (v : Nat) :
    (∑ x : VulkanObjectType, Function.update f t v x) + f t =
      (∑ x : VulkanObjectType, f x) + v := by
  rw [Finset.sum_update_of_mem (Finset.mem_univ t)]
  rw [Finset.sum_eq_sum_diff_singleton_add (Finset.mem_univ t) f]
  omega

/- ===== Behaviour of the cross-owner scan ===== -/

theorem scanOtherOwners_no_match (rd : debug_report_data) (device_key object_handle : Nat)
    (object_type : VulkanObjectType) (invalid_handle_code wrong_device_code : String)
    (rest : World)
    (H : ∀ p ∈ rest, p.1 ≠ device_key →
      ¬((assocFind (p.2.objdata.object_map object_type) object_handle).isSome = true ∨
        (object_type = kVulkanObjectTypeImage ∧
          (assocFind p.2.objdata.swapchainImageMap object_handle).isSome = true))) :
    scanOtherOwners rd device_key object_handle object_type
        invalid_handle_code wrong_device_code rest =
      (rd.verdict VkDebugReportFlag.error invalid_handle_code,
        [⟨VkDebugReportFlag.error, invalid_handle_code, object_handle⟩]) := by
  induction rest with
  | nil => simp [scanOtherOwners, log_msg]
  | cons p rest ih =>
      have hcond : ¬(p.1 ≠ device_key ∧
          ((assocFind (p.2.objdata.object_map object_type) object_handle).isSome = true ∨
            (object_type = kVulkanObjectTypeImage ∧
              (assocFind p.2.objdata.swapchainImageMap object_handle).isSome = true))) := by
        rintro ⟨hne, hc⟩
        exact H p (List.mem_cons_self _ _) hne hc
      rw [scanOtherOwners, if_neg hcond]
      exact ih (fun q hq => H q (List.mem_cons_of_mem _ hq))

theorem scanOtherOwners_match (rd : debug_report_data) (device_key object_handle : Nat)
    (object_type : VulkanObjectType) (invalid_handle_code wrong_device_code : String)
    (rest : World)
    (H : ∃ p ∈ rest, p.1 ≠ device_key ∧
      ((assocFind (p.2.objdata.object_map object_type) object_handle).isSome = true ∨
        (object_type = kVulkanObjectTypeImage ∧
          (assocFind p.2.objdata.swapchainImageMap object_handle).isSome = true))) :
    scanOtherOwners rd device_key object_handle object_type
        invalid_handle_code wrong_device_code rest =
      if wrong_device_code ≠ kVUIDUndefined ∧ object_type ≠ kVulkanObjectTypeSurfaceKHR then
        (rd.verdict VkDebugReportFlag.error wrong_device_code,
          [⟨VkDebugReportFlag.error, wrong_device_code, object_handle⟩])
      else (false, []) := by
  induction rest with
  | nil => simp at H
  | cons p rest ih =>
      by_cases hcond : p.1 ≠ device_key ∧
          ((assocFind (p.2.objdata.object_map object_type) object_handle).isSome = true ∨
            (object_type = kVulkanObjectTypeImage ∧
              (assocFind p.2.objdata.swapchainImageMap object_handle).isSome = true))
      · rw [scanOtherOwners, if_pos hcond]
        split
        · rfl
        · rfl
      · rw [scanOtherOwners, if_neg hcond]
        apply ih
        obtain ⟨q, hq, hq1, hq2⟩ := H
        rcases List.mem_cons.mp hq with h1 | h1
        · exact absurd ⟨hq1, hq2⟩ (h1 ▸ hcond)
        · exact ⟨q, h1, hq1, hq2⟩

/-- The not-found-anywhere path of ValidateObject: when the expected
owner exists, the handle is in no owner's bucket for this category and,
for the image category, in no swapchain-image alias map, the
invalid-handle diagnostic is emitted and its verdict returned. -/
theorem validateObject_not_found (w : World) (dispatch_key object : Nat)
    (object_type : VulkanObjectType) (null_allowed : Bool)
    (invalid_handle_code wrong_device_code : String) (dd : layer_data)
    (hna : ¬(null_allowed = true ∧ object = VK_NULL_HANDLE))
    (hdev : object_type ≠ kVulkanObjectTypeDevice)
    (hk : assocFind w dispatch_key = some dd)
    (habs : ∀ p ∈ w, assocFind (p.2.objdata.object_map object_type) object = none ∧
      (object_type = kVulkanObjectTypeImage →
        assocFind p.2.objdata.swapchainImageMap object = none)) :
    ValidateObject w dispatch_key object object_type null_allowed
        invalid_handle_code wrong_device_code =
      (w, dd.report_data.verdict VkDebugReportFlag.error invalid_handle_code,
        [⟨VkDebugReportFlag.error, invalid_handle_code, object⟩]) := by
  obtain ⟨h1, h2⟩ := habs _ (assocFind_mem hk)
  rw [ValidateObject, if_neg hna, if_neg hdev]
  have hres : GetLayerDataPtr w dispatch_key = (w, dd) := by
    rw [GetLayerDataPtr, hk]
  rw [hres]
  dsimp only
  rw [h1]
  have hali : ¬(object_type = kVulkanObjectTypeImage ∧
      (assocFind dd.objdata.swapchainImageMap object).isSome = true) := by
    rintro ⟨hi, hs⟩
    rw [h2 hi] at hs
    simp at hs
  rw [if_neg (by simp), if_neg hali]
  rw [scanOtherOwners_no_match]
  intro p hp _
  obtain ⟨g1, g2⟩ := habs p hp
  rintro (hc | ⟨hi, hc⟩)
  · rw [g1] at hc; simp at hc
  · rw [g2 hi] at hc; simp at hc

/- ===== Characterization of DestroyObjectSilently ===== -/

theorem DestroyObjectSilently_some_elim {od : ObjectLifetime} {object : Nat}
    {object_type : VulkanObjectType} {od' : ObjectLifetime}
    (h : DestroyObjectSilently od object object_type = some od') :
    ∃ pNode, object ≠ VK_NULL_HANDLE ∧
      assocFind (od.object_map object_type) object = some pNode ∧
      od.num_total_objects ≠ 0 ∧ od.num_objects pNode.object_type ≠ 0 ∧
      od' = { od with
        num_total_objects := od.num_total_objects - 1,
        num_objects := Function.update od.num_objects pNode.object_type
          (od.num_objects pNode.object_type - 1),
        object_map := Function.update od.object_map object_type
          (assocErase (od.object_map object_type) object) } := by
  unfold DestroyObjectSilently at h
  by_cases h0 : object = VK_NULL_HANDLE
  · rw [if_pos h0] at h
    exact absurd h (by simp)
  · rw [if_neg h0] at h
    cases hf : assocFind (od.object_map object_type) object with
    | none => rw [hf] at h; exact absurd h (by simp)
    | some pNode =>
        rw [hf] at h
        dsimp only at h
        by_cases ht : od.num_total_objects = 0
        · rw [if_pos ht] at h; exact absurd h (by simp)
        · rw [if_neg ht] at h
          by_cases hn : od.num_objects pNode.object_type = 0
          · rw [if_pos hn] at h; exact absurd h (by simp)
          · rw [if_neg hn] at h
            exact ⟨pNode, h0, rfl, ht, hn, (Option.some.inj h).symm⟩

theorem DestroyObjectSilently_some_intro (od : ObjectLifetime) (object : Nat)
    (object_type : VulkanObjectType) (pNode : ObjTrackState)
    (h0 : object ≠ VK_NULL_HANDLE)
    (hf : assocFind (od.object_map object_type) object = some pNode)
    (ht : od.num_total_objects ≠ 0) (hn : od.num_objects pNode.object_type ≠ 0) :
    DestroyObjectSilently od object object_type =
      some { od with
        num_total_objects := od.num_total_objects - 1,
        num_objects := Function.update od.num_objects pNode.object_type
          (od.num_objects pNode.object_type - 1),
        object_map := Function.update od.object_map object_type
          (assocErase (od.object_map object_type) object) } := by
  unfold DestroyObjectSilently
  rw [if_neg h0, hf]
  dsimp only
  rw [if_neg ht, if_neg hn]

/- ===== Invariant preservation ===== -/

theorem CreateObject_preserves (rd : debug_report_data) (od : ObjectLifetime)
    (object : Nat) (ty : VulkanObjectType) (ca : Bool)
    (hc : counts_consistent od) (ht : record_types_consistent od) :
    counts_consistent (CreateObject rd od object ty ca).1 ∧
      record_types_consistent (CreateObject rd od object ty ca).1 ∧
      (CreateObject rd od object ty ca).1.swapchainImageMap = od.swapchainImageMap := by
  by_cases hsome : (assocFind (od.object_map ty) object).isSome = true
  · rw [CreateObject, if_pos hsome]
    exact ⟨hc, ht, rfl⟩
  · have hnone : assocFind (od.object_map ty) object = none := by
      cases hfind : assocFind (od.object_map ty) object with
      | none => rfl
      | some v => rw [hfind] at hsome; simp at hsome
    rw [CreateObject, if_neg hsome]
    refine ⟨⟨?_, ?_⟩, ?_, rfl⟩
    · intro t
      dsimp only
      by_cases hty : t = ty
      · subst hty
        rw [Function.update_same, Function.update_same,
          length_assocInsert_of_none _ hnone, hc.1 t]
      · rw [Function.update_noteq hty, Function.update_noteq hty]
        exact hc.1 t
    · dsimp only
      have hs := sum_update_add od.num_objects ty (od.num_objects ty + 1)
      have h2 := hc.2
      omega
    · intro t p hp
      dsimp only at hp
      by_cases hty : t = ty
      · subst hty
        rw [Function.update_same] at hp
        rcases mem_assocInsert hp with h1 | h1
        · exact ht _ _ h1
        · rw [h1]
      · rw [Function.update_noteq hty] at hp
        exact ht _ _ hp

theorem DestroyObjectSilently_preserves (od : ObjectLifetime) (object : Nat)
    (ty : VulkanObjectType) (od' : ObjectLifetime)
    (hc : counts_consistent od) (ht : record_types_consistent od)
    (h : DestroyObjectSilently od object ty = some od') :
    counts_consistent od' ∧ record_types_consistent od' ∧
      od'.swapchainImageMap = od.swapchainImageMap := by
  obtain ⟨pNode, h0, hf, htot, hnum, rfl⟩ := DestroyObjectSilently_some_elim h
  have hpt : pNode.object_type = ty := ht ty (object, pNode) (assocFind_mem hf)
  rw [hpt] at hnum ⊢
  have hlen := length_assocErase_add_one hf
  refine ⟨⟨?_, ?_⟩, ?_, rfl⟩
  · intro t
    dsimp only
    by_cases hty : t = ty
    · subst hty
      rw [Function.update_same, Function.update_same]
      have := hc.1 t
      omega
    · rw [Function.update_noteq hty, Function.update_noteq hty]
      exact hc.1 t
  · dsimp only
    have hs := sum_update_add od.num_objects ty (od.num_objects ty - 1)
    have h2 := hc.2
    omega
  · intro t p hp
    dsimp only at hp
    by_cases hty : t = ty
    · subst hty
      rw [Function.update_same] at hp
      exact ht _ _ (mem_assocErase hp)
    · rw [Function.update_noteq hty] at hp
      exact ht _ _ hp

theorem RecordDestroyObject_preserves (od : ObjectLifetime) (object : Nat)
    (ty : VulkanObjectType) (od' : ObjectLifetime)
    (hc : counts_consistent od) (ht : record_types_consistent od)
    (h : RecordDestroyObject od object ty = some od') :
    counts_consistent od' ∧ record_types_consistent od' ∧
      od'.swapchainImageMap = od.swapchainImageMap := by
  rw [RecordDestroyObject] at h
  by_cases h0 : object ≠ VK_NULL_HANDLE
  · rw [if_pos h0] at h
    cases hf : assocFind (od.object_map ty) object with
    | none =>
        rw [hf] at h
        obtain rfl : od = od' := Option.some.inj h
        exact ⟨hc, ht, rfl⟩
    | some pNode =>
        rw [hf] at h
        exact DestroyObjectSilently_preserves od object ty od' hc ht h
  · rw [if_neg h0] at h
    obtain rfl : od = od' := Option.some.inj h
    exact ⟨hc, ht, rfl⟩

/-- Under the registry invariant, a found record forces both counters
positive: the asserted preconditions of DestroyObjectSilently hold. -/
theorem counts_positive_of_found (od : ObjectLifetime) (object : Nat)
    (ty : VulkanObjectType) (pNode : ObjTrackState)
    (hc : counts_consistent od) (ht : record_types_consistent od)
    (hf : assocFind (od.object_map ty) object = some pNode) :
    od.num_total_objects ≠ 0 ∧ od.num_objects pNode.object_type ≠ 0 := by
  have hpt : pNode.object_type = ty := ht ty (object, pNode) (assocFind_mem hf)
  have hlen : 0 < (od.object_map ty).length :=
    List.length_pos.mpr (List.ne_nil_of_mem (assocFind_mem hf))
  have hnum : od.num_objects ty ≠ 0 := by
    rw [hc.1 ty]; omega
  have hle : od.num_objects ty ≤ ∑ t : VulkanObjectType, od.num_objects t :=
    Finset.single_le_sum (fun i _ => Nat.zero_le _) (Finset.mem_univ ty)
  have htot : od.num_total_objects ≠ 0 := by
    have h2 := hc.2
    omega
  rw [hpt]
  exact ⟨htot, hnum⟩

theorem sampleOL_counts : counts_consistent sampleOL := by
  constructor
  · intro t
    cases t <;> decide
  · decide

theorem sampleOL_types : record_types_consistent sampleOL := by
  intro t
  cases t <;> decide

/- ===== Claims ===== -/

/-- Claim C1: for every owner context satisfying the registry invariant,
after each core operation (CreateObject, DestroyObjectSilently,
RecordDestroyObject) num_total_objects equals the sum over all
categories of num_objects, each num_objects t equals the number of
entries of object_map t, and the swapchainImageMap — untouched by all
three operations — contributes to neither counter. -/
theorem claim_C1 (rd : debug_report_data) (od : ObjectLifetime) (object : Nat)
    (ty : VulkanObjectType) (ca : Bool)
    (hc : counts_consistent od) (ht : record_types_consistent od) :
    (counts_consistent (CreateObject rd od object ty ca).1 ∧
      record_types_consistent (CreateObject rd od object ty ca).1 ∧
      (CreateObject rd od object ty ca).1.swapchainImageMap = od.swapchainImageMap) ∧
    (∀ od', DestroyObjectSilently od object ty = some od' →
      counts_consistent od' ∧ record_types_consistent od' ∧
      od'.swapchainImageMap = od.swapchainImageMap) ∧
    (∀ od', RecordDestroyObject od object ty = some od' →
      counts_consistent od' ∧ record_types_consistent od' ∧
      od'.swapchainImageMap = od.swapchainImageMap) := by
  refine ⟨CreateObject_preserves rd od object ty ca hc ht, ?_, ?_⟩
  · intro od' h
    exact DestroyObjectSilently_preserves od object ty od' hc ht h
  · intro od' h
    exact RecordDestroyObject_preserves od object ty od' hc ht h

/-- Claim C1 witness: the invariant holds of the one-image owner
sampleOL, and it is preserved across a concrete create of queue handle 5
and a concrete destroy of image handle 7. -/
theorem claim_C1_witness :
    counts_consistent sampleOL ∧ record_types_consistent sampleOL ∧
      counts_consistent (CreateObject rdTrue sampleOL 5 kVulkanObjectTypeQueue true).1 := by
  have h1 : counts_consistent sampleOL := sampleOL_counts
  have h2 : record_types_consistent sampleOL := sampleOL_types
  exact ⟨h1, h2,
    ((claim_C1 rdTrue sampleOL 5 kVulkanObjectTypeQueue true h1 h2).1).1⟩

/-- Claim C2: CreateObject is idempotent — on a (category, handle) pair
already present it leaves the owner's data unchanged and emits nothing;
on an absent pair it files exactly one new record for that handle and
increments the total and that category's count by one, touching no other
bucket, count, or handle. -/
theorem claim_C2 (rd : debug_report_data) (od : ObjectLifetime) (object : Nat)
    (ty : VulkanObjectType) (ca : Bool) :
    ((assocFind (od.object_map ty) object).isSome = true →
      CreateObject rd od object ty ca = (od, [])) ∧
    (assocFind (od.object_map ty) object = none →
      (CreateObject rd od object ty ca).1.num_total_objects = od.num_total_objects + 1 ∧
      (CreateObject rd od object ty ca).1.num_objects ty = od.num_objects ty + 1 ∧
      (∀ t, t ≠ ty →
        (CreateObject rd od object ty ca).1.num_objects t = od.num_objects t ∧
        (CreateObject rd od object ty ca).1.object_map t = od.object_map t) ∧
      assocFind ((CreateObject rd od object ty ca).1.object_map ty) object =
        some ⟨ty, ca, object⟩ ∧
      (∀ k, k ≠ object →
        assocFind ((CreateObject rd od object ty ca).1.object_map ty) k =
          assocFind (od.object_map ty) k) ∧
      ((CreateObject rd od object ty ca).1.object_map ty).length =
        (od.object_map ty).length + 1) := by
  constructor
  · intro hsome
    rw [CreateObject, if_pos hsome]
  · intro hnone
    have hguard : ¬((assocFind (od.object_map ty) object).isSome = true) := by
      rw [hnone]; simp
    rw [CreateObject, if_neg hguard]
    refine ⟨rfl, ?_, ?_, ?_, ?_, ?_⟩
    · dsimp only
      rw [Function.update_same]
    · intro t hty
      dsimp only
      rw [Function.update_noteq hty, Function.update_noteq hty]
      exact ⟨rfl, rfl⟩
    · dsimp only
      rw [Function.update_same]
      exact assocFind_assocInsert_self _ _ _
    · intro k hk
      dsimp only
      rw [Function.update_same]
      exact assocFind_assocInsert_ne _ _ hk
    · dsimp only
      rw [Function.update_same]
      exact length_assocInsert_of_none _ hnone

/-- Claim C2 witness: a duplicate create of image 7 on sampleOL is a
no-op with no diagnostic, and a fresh create of queue 5 bumps both
counters by one. -/
theorem claim_C2_witness :
    (assocFind (sampleOL.object_map kVulkanObjectTypeImage) 7).isSome = true ∧
    CreateObject rdTrue sampleOL 7 kVulkanObjectTypeImage false = (sampleOL, []) ∧
    assocFind (sampleOL.object_map kVulkanObjectTypeQueue) 5 = none ∧
    (CreateObject rdTrue sampleOL 5 kVulkanObjectTypeQueue true).1.num_total_objects =
      sampleOL.num_total_objects + 1 := by
  refine ⟨by decide, ?_, by decide, ?_⟩
  · exact (claim_C2 rdTrue sampleOL 7 kVulkanObjectTypeImage false).1 (by decide)
  · exact ((claim_C2 rdTrue sampleOL 5 kVulkanObjectTypeQueue true).2 (by decide)).1

/-- Claim C10: RecordDestroyObject is total and safe — a null or
unregistered handle leaves the owner's data unchanged (and the function
emits no diagnostic by construction), and on any owner satisfying the
registry invariant the asserted preconditions of DestroyObjectSilently
hold whenever it is reached, so no internal-consistency abort (Option
none) is reachable through RecordDestroyObject. -/
theorem claim_C10 (od : ObjectLifetime) (object : Nat) (ty : VulkanObjectType)
    (hc : counts_consistent od) (ht : record_types_consistent od) :
    ((object = VK_NULL_HANDLE ∨ assocFind (od.object_map ty) object = none) →
      RecordDestroyObject od object ty = some od) ∧
    (RecordDestroyObject od object ty).isSome = true := by
  constructor
  · rintro (h0 | hf)
    · rw [RecordDestroyObject, if_neg (by simpa using h0)]
    · by_cases h0 : object = VK_NULL_HANDLE
      · rw [RecordDestroyObject, if_neg (by simpa using h0)]
      · rw [RecordDestroyObject, if_pos h0, hf]
  · by_cases h0 : object = VK_NULL_HANDLE
    · rw [RecordDestroyObject, if_neg (by simpa using h0)]
      rfl
    · cases hf : assocFind (od.object_map ty) object with
      | none =>
          rw [RecordDestroyObject, if_pos h0, hf]
          rfl
      | some pNode =>
          obtain ⟨htot, hnum⟩ := counts_positive_of_found od object ty pNode hc ht hf
          rw [RecordDestroyObject, if_pos h0, hf,
            DestroyObjectSilently_some_intro od object ty pNode h0 hf htot hnum]
          rfl

/-- Claim C10 witness: on sampleOL (which satisfies the invariant) an
unregistered handle is a no-op and a registered one destroys without
hitting any assertion. -/
theorem claim_C10_witness :
    counts_consistent sampleOL ∧ record_types_consistent sampleOL ∧
      RecordDestroyObject sampleOL 9 kVulkanObjectTypeImage = some sampleOL ∧
      (RecordDestroyObject sampleOL 7 kVulkanObjectTypeImage).isSome = true := by
  have h1 : counts_consistent sampleOL := sampleOL_counts
  have h2 : record_types_consistent sampleOL := sampleOL_types
  refine ⟨h1, h2, ?_, ?_⟩
  · exact (claim_C10 sampleOL 9 kVulkanObjectTypeImage h1 h2).1 (Or.inr (by decide))
  · exact (claim_C10 sampleOL 7 kVulkanObjectTypeImage h1 h2).2

/-- Claim C3 counterexample: image handle 5 is non-null and absent from
the owner's registry, the sink suppresses everything, and both allocator
codes are defined — yet ValidateDestroyObject emits no diagnostic at all
and returns false (do not skip): it performs no existence check. -/
theorem claim_C3_counterexample :
    ValidateDestroyObject rdTrue emptyObjectLifetime 5 kVulkanObjectTypeImage false
      "VUID-vkDestroyImage-image-parameter" "VUID-vkDestroyImage-image-01001" =
      (false, []) := by
  decide

/-- Claim C3 (amended): for every non-null handle absent from the
owner's object_map for its category, ValidateDestroyObject emits no
diagnostic and returns false — it performs no existence check and never
signals the caller to skip destruction (missing-handle detection is left
to ValidateObject). -/
theorem claim_C3 (rd : debug_report_data) (od : ObjectLifetime) (object : Nat)
    (ty : VulkanObjectType) (ca : Bool) (ecac edac : String)
    (h0 : object ≠ VK_NULL_HANDLE)
    (hf : assocFind (od.object_map ty) object = none) :
    ValidateDestroyObject rd od object ty ca ecac edac = (false, []) := by
  rw [ValidateDestroyObject, if_pos h0, hf]

/-- Claim C3 witness: the amended statement evaluated on a concrete
absent non-null handle. -/
theorem claim_C3_witness :
    (5 : Nat) ≠ VK_NULL_HANDLE ∧
    assocFind (emptyObjectLifetime.object_map kVulkanObjectTypeQueue) 5 = none ∧
    ValidateDestroyObject rdFalse emptyObjectLifetime 5 kVulkanObjectTypeQueue true
      "VUID-custom-expected" "VUID-default-expected" = (false, []) :=
  ⟨by decide, by decide,
    claim_C3 rdFalse emptyObjectLifetime 5 kVulkanObjectTypeQueue true
      "VUID-custom-expected" "VUID-default-expected" (by decide) (by decide)⟩

/-- Claim C6 counterexample: nullRecordOL holds a registry record (for
the null handle) created with a custom allocator; destroying it with the
default allocator and a defined expected_custom_allocator_code emits no
mismatch diagnostic, because ValidateDestroyObject skips the null
handle before looking at the registry. -/
theorem claim_C6_counterexample :
    assocFind (nullRecordOL.object_map kVulkanObjectTypeImage) 0 = some nullNode ∧
    nullNode.status = true ∧
    ValidateDestroyObject rdTrue nullRecordOL 0 kVulkanObjectTypeImage false
      "VUID-custom-expected" "VUID-default-expected" = (false, []) := by
  refine ⟨by decide, by decide, by decide⟩

/-- Claim C6 (amended): for every registry record with a non-null
handle, ValidateDestroyObject reports allocator mismatches in both
directions with the two distinct per-direction codes, and passing
kVUIDUndefined for either code suppresses exactly that direction's
check (the informational destroy message is emitted in every found
case). -/
theorem claim_C6 (rd : debug_report_data) (od : ObjectLifetime) (object : Nat)
    (ty : VulkanObjectType) (ca : Bool) (ecac edac : String) (pNode : ObjTrackState)
    (h0 : object ≠ VK_NULL_HANDLE)
    (hf : assocFind (od.object_map ty) object = some pNode) :
    ((pNode.status = true ∧ ca = false ∧ ecac ≠ kVUIDUndefined) →
      ValidateDestroyObject rd od object ty ca ecac edac =
        (rd.verdict VkDebugReportFlag.information kVUID_ObjectTracker_Info ||
            rd.verdict VkDebugReportFlag.error ecac,
          [⟨VkDebugReportFlag.information, kVUID_ObjectTracker_Info, object⟩,
            ⟨VkDebugReportFlag.error, ecac, object⟩])) ∧
    ((pNode.status = false ∧ ca = true ∧ edac ≠ kVUIDUndefined) →
      ValidateDestroyObject rd od object ty ca ecac edac =
        (rd.verdict VkDebugReportFlag.information kVUID_ObjectTracker_Info ||
            rd.verdict VkDebugReportFlag.error edac,
          [⟨VkDebugReportFlag.information, kVUID_ObjectTracker_Info, object⟩,
            ⟨VkDebugReportFlag.error, edac, object⟩])) ∧
    ((pNode.status = true ∧ ca = false ∧ ecac = kVUIDUndefined) →
      ValidateDestroyObject rd od object ty ca ecac edac =
        (rd.verdict VkDebugReportFlag.information kVUID_ObjectTracker_Info,
          [⟨VkDebugReportFlag.information, kVUID_ObjectTracker_Info, object⟩])) ∧
    ((pNode.status = false ∧ ca = true ∧ edac = kVUIDUndefined) →
      ValidateDestroyObject rd od object ty ca ecac edac =
        (rd.verdict VkDebugReportFlag.information kVUID_ObjectTracker_Info,
          [⟨VkDebugReportFlag.information, kVUID_ObjectTracker_Info, object⟩])) := by
  refine ⟨?_, ?_, ?_, ?_⟩
  · rintro ⟨hs, hca, hcode⟩
    rw [ValidateDestroyObject, if_pos h0, hf]
    dsimp only
    rw [if_pos ⟨hs, hca, hcode⟩]
    rfl
  · rintro ⟨hs, hca, hcode⟩
    rw [ValidateDestroyObject, if_pos h0, hf]
    dsimp only
    rw [if_neg (by simp [hs]), if_pos ⟨hs, hca, hcode⟩]
    rfl
  · rintro ⟨hs, hca, hcode⟩
    rw [ValidateDestroyObject, if_pos h0, hf]
    dsimp only
    rw [if_neg (by simp [hcode]), if_neg (by simp [hs])]
    rfl
  · rintro ⟨hs, hca, hcode⟩
    rw [ValidateDestroyObject, if_pos h0, hf]
    dsimp only
    rw [if_neg (by simp [hca]), if_neg (by simp [hcode])]
    rfl

/-- Claim C6 witness: the custom-created image record of sampleOL,
destroyed with the default allocator, triggers the
expected-custom-allocator code. -/
theorem claim_C6_witness :
    (7 : Nat) ≠ VK_NULL_HANDLE ∧
    assocFind (sampleOL.object_map kVulkanObjectTypeImage) 7 = some sampleNode ∧
    (sampleNode.status = true ∧ false = false ∧
      "VUID-custom-expected" ≠ kVUIDUndefined) ∧
    ValidateDestroyObject rdTrue sampleOL 7 kVulkanObjectTypeImage false
        "VUID-custom-expected" "VUID-default-expected" =
      (rdTrue.verdict VkDebugReportFlag.information kVUID_ObjectTracker_Info ||
          rdTrue.verdict VkDebugReportFlag.error "VUID-custom-expected",
        [⟨VkDebugReportFlag.information, kVUID_ObjectTracker_Info, 7⟩,
          ⟨VkDebugReportFlag.error, "VUID-custom-expected", 7⟩]) :=
  ⟨by decide, by decide, by decide,
    (claim_C6 rdTrue sampleOL 7 kVulkanObjectTypeImage false
        "VUID-custom-expected" "VUID-default-expected" sampleNode
        (by decide) (by decide)).1 (by decide)⟩

/-- Claim C4: a handle absent from the expected owner's registry and
alias map but held by some other live owner of the same category draws
the wrong-device diagnostic and its suppress verdict — except that a
kVUIDUndefined wrong-device code or the presentation-surface category
yields "valid" (false) with no diagnostic.  (The null sentinel with
null_allowed, and the device category with its dedicated path, are
outside this statement.) -/
theorem claim_C4 (w : World) (dispatch_key object : Nat) (ty : VulkanObjectType)
    (na : Bool) (ihc wdc : String) (dd : layer_data)
    (hna : ¬(na = true ∧ object = VK_NULL_HANDLE))
    (hdev : ty ≠ kVulkanObjectTypeDevice)
    (hk : assocFind w dispatch_key = some dd)
    (hown : assocFind (dd.objdata.object_map ty) object = none)
    (hali : ¬(ty = kVulkanObjectTypeImage ∧
      (assocFind dd.objdata.swapchainImageMap object).isSome = true))
    (hother : ∃ p ∈ w, p.1 ≠ dispatch_key ∧
      ((assocFind (p.2.objdata.object_map ty) object).isSome = true ∨
        (ty = kVulkanObjectTypeImage ∧
          (assocFind p.2.objdata.swapchainImageMap object).isSome = true))) :
    ((wdc ≠ kVUIDUndefined ∧ ty ≠ kVulkanObjectTypeSurfaceKHR) →
      ValidateObject w dispatch_key object ty na ihc wdc =
        (w, dd.report_data.verdict VkDebugReportFlag.error wdc,
          [⟨VkDebugReportFlag.error, wdc, object⟩])) ∧
    ((wdc = kVUIDUndefined ∨ ty = kVulkanObjectTypeSurfaceKHR) →
      ValidateObject w dispatch_key object ty na ihc wdc = (w, false, [])) := by
  have hres : GetLayerDataPtr w dispatch_key = (w, dd) := by
    rw [GetLayerDataPtr, hk]
  have hmain : ValidateObject w dispatch_key object ty na ihc wdc =
      (w, scanOtherOwners dd.report_data dispatch_key object ty ihc wdc w) := by
    rw [ValidateObject, if_neg hna, if_neg hdev, hres]
    dsimp only
    rw [hown]
    rw [if_neg (by simp), if_neg hali]
  constructor
  · intro hcond
    rw [hmain, scanOtherOwners_match _ _ _ _ _ _ _ hother, if_pos hcond]
  · intro hcond
    have hncond : ¬(wdc ≠ kVUIDUndefined ∧ ty ≠ kVulkanObjectTypeSurfaceKHR) := by
      rcases hcond with h | h
      · exact fun hc => hc.1 h
      · exact fun hc => hc.2 h
    rw [hmain, scanOtherOwners_match _ _ _ _ _ _ _ hother, if_neg hncond]

/-- Claim C4 witness: queue handle 7 is absent from owner 1 but owned by
owner 2; the wrong-device code is defined and queue is not the surface
category, so the wrong-device diagnostic and the suppressing verdict
come back. -/
theorem claim_C4_witness :
    assocFind w1 1 = some ldEmptyTrue ∧
    assocFind (ldEmptyTrue.objdata.object_map kVulkanObjectTypeQueue) 7 = none ∧
    (∃ p ∈ w1, p.1 ≠ 1 ∧
      ((assocFind (p.2.objdata.object_map kVulkanObjectTypeQueue) 7).isSome = true ∨
        (kVulkanObjectTypeQueue = kVulkanObjectTypeImage ∧
          (assocFind p.2.objdata.swapchainImageMap 7).isSome = true))) ∧
    ValidateObject w1 1 7 kVulkanObjectTypeQueue false
        "VUID-invalid-queue" "VUID-wrong-device" =
      (w1, ldEmptyTrue.report_data.verdict VkDebugReportFlag.error "VUID-wrong-device",
        [⟨VkDebugReportFlag.error, "VUID-wrong-device", 7⟩]) := by
  have hmem : (2, ldOther) ∈ w1 := by simp [w1]
  refine ⟨rfl, by decide, ⟨(2, ldOther), hmem, by decide, by decide⟩, ?_⟩
  exact (claim_C4 w1 1 7 kVulkanObjectTypeQueue false
      "VUID-invalid-queue" "VUID-wrong-device" ldEmptyTrue
      (by decide) (by decide) rfl (by decide) (by decide)
      ⟨(2, ldOther), hmem, by decide, Or.inl (by decide)⟩).1 (by decide)

/-- Claim C5 counterexample: image handle 5 is non-null, non-device and
present in no registry or alias map of the single live owner, whose sink
never requests suppression.  ValidateObject emits the per-call
invalid-handle code but returns false ("valid"), not "invalid": the
returned Boolean is the sink's verdict, not a fixed "invalid". -/
theorem claim_C5_counterexample :
    ValidateObject w0 1 5 kVulkanObjectTypeImage false
        "VUID-invalid-image" "VUID-wrong-device" =
      (w0, false, [⟨VkDebugReportFlag.error, "VUID-invalid-image", 5⟩]) := by
  rfl

/-- Claim C5 (amended): for every non-null, non-device handle present in
no live owner's registry nor in any swapchain-image alias map,
ValidateObject emits the per-call invalid-handle diagnostic code and
returns the diagnostic sink's suppress verdict for it (which is
"invalid"/skip exactly when the layer is configured to suppress). -/
theorem claim_C5 (w : World) (dispatch_key object : Nat) (ty : VulkanObjectType)
    (na : Bool) (ihc wdc : String) (dd : layer_data)
    (h0 : object ≠ VK_NULL_HANDLE)
    (hdev : ty ≠ kVulkanObjectTypeDevice)
    (hk : assocFind w dispatch_key = some dd)
    (habs : ∀ p ∈ w, assocFind (p.2.objdata.object_map ty) object = none ∧
      assocFind p.2.objdata.swapchainImageMap object = none) :
    ValidateObject w dispatch_key object ty na ihc wdc =
      (w, dd.report_data.verdict VkDebugReportFlag.error ihc,
        [⟨VkDebugReportFlag.error, ihc, object⟩]) :=
  validateObject_not_found w dispatch_key object ty na ihc wdc dd
    (fun hc => h0 hc.2) hdev hk
    (fun p hp => ⟨(habs p hp).1, fun _ => (habs p hp).2⟩)

/-- Claim C5 witness: image handle 5 found nowhere in the suppressing
single-owner world w4 yields the invalid-handle diagnostic and the
verdict true. -/
theorem claim_C5_witness :
    (5 : Nat) ≠ VK_NULL_HANDLE ∧
    assocFind w4 1 = some ldEmptyTrue ∧
    (∀ p ∈ w4, assocFind (p.2.objdata.object_map kVulkanObjectTypeImage) 5 = none ∧
      assocFind p.2.objdata.swapchainImageMap 5 = none) ∧
    ValidateObject w4 1 5 kVulkanObjectTypeImage false
        "VUID-invalid-image" "VUID-wrong-device" =
      (w4, ldEmptyTrue.report_data.verdict VkDebugReportFlag.error "VUID-invalid-image",
        [⟨VkDebugReportFlag.error, "VUID-invalid-image", 5⟩]) :=
  ⟨by decide, rfl, by decide,
    claim_C5 w4 1 5 kVulkanObjectTypeImage false
      "VUID-invalid-image" "VUID-wrong-device" ldEmptyTrue
      (by decide) (by decide) rfl (by decide)⟩

/-- Claim C7: with null_allowed set, ValidateObject accepts the null
handle immediately — no diagnostic, no registry read, no state change;
with null_allowed clear, the null handle flows through the ordinary
lookup path and (being absent everywhere, for a non-device category) is
rejected through the normal not-found path. -/
theorem claim_C7 (w : World) (dispatch_key : Nat) (ty : VulkanObjectType)
    (ihc wdc : String) (dd : layer_data) :
    (ValidateObject w dispatch_key VK_NULL_HANDLE ty true ihc wdc = (w, false, [])) ∧
    (ty ≠ kVulkanObjectTypeDevice → assocFind w dispatch_key = some dd →
      (∀ p ∈ w, assocFind (p.2.objdata.object_map ty) VK_NULL_HANDLE = none ∧
        assocFind p.2.objdata.swapchainImageMap VK_NULL_HANDLE = none) →
      ValidateObject w dispatch_key VK_NULL_HANDLE ty false ihc wdc =
        (w, dd.report_data.verdict VkDebugReportFlag.error ihc,
          [⟨VkDebugReportFlag.error, ihc, VK_NULL_HANDLE⟩])) := by
  constructor
  · rw [ValidateObject, if_pos ⟨rfl, rfl⟩]
  · intro hdev hk habs
    exact validateObject_not_found w dispatch_key VK_NULL_HANDLE ty false ihc wdc dd
      (fun hc => by simp at hc) hdev hk
      (fun p hp => ⟨(habs p hp).1, fun _ => (habs p hp).2⟩)

/-- Claim C7 witness: both branches evaluated on the one-owner world w4:
null accepted when allowed, rejected as not-found when not allowed. -/
theorem claim_C7_witness :
    ValidateObject w4 1 VK_NULL_HANDLE kVulkanObjectTypeQueue true
        "VUID-invalid-queue" "VUID-wrong-device" = (w4, false, []) ∧
    ValidateObject w4 1 VK_NULL_HANDLE kVulkanObjectTypeQueue false
        "VUID-invalid-queue" "VUID-wrong-device" =
      (w4, ldEmptyTrue.report_data.verdict VkDebugReportFlag.error "VUID-invalid-queue",
        [⟨VkDebugReportFlag.error, "VUID-invalid-queue", VK_NULL_HANDLE⟩]) :=
  ⟨(claim_C7 w4 1 kVulkanObjectTypeQueue
      "VUID-invalid-queue" "VUID-wrong-device" ldEmptyTrue).1,
    (claim_C7 w4 1 kVulkanObjectTypeQueue
      "VUID-invalid-queue" "VUID-wrong-device" ldEmptyTrue).2
      (by decide) rfl (by decide)⟩

/-- Claim C8: an image handle absent from the expected owner's registry
but present in its swapchainImageMap is accepted with no diagnostic, for
every content of the other owners (the alias map is consulted before the
cross-owner scan); and the alias map is consulted only for the image
category — for any other non-device category an alias-map entry does not
prevent the not-found rejection. -/
theorem claim_C8 (w : World) (dispatch_key object : Nat) (ty : VulkanObjectType)
    (na : Bool) (ihc wdc : String) (dd : layer_data)
    (hk : assocFind w dispatch_key = some dd) :
    ((assocFind (dd.objdata.object_map kVulkanObjectTypeImage) object = none →
      (assocFind dd.objdata.swapchainImageMap object).isSome = true →
      ValidateObject w dispatch_key object kVulkanObjectTypeImage na ihc wdc =
        (w, false, []))) ∧
    (ty ≠ kVulkanObjectTypeImage → ty ≠ kVulkanObjectTypeDevice →
      ¬(na = true ∧ object = VK_NULL_HANDLE) →
      (assocFind dd.objdata.swapchainImageMap object).isSome = true →
      (∀ p ∈ w, assocFind (p.2.objdata.object_map ty) object = none) →
      ValidateObject w dispatch_key object ty na ihc wdc =
        (w, dd.report_data.verdict VkDebugReportFlag.error ihc,
          [⟨VkDebugReportFlag.error, ihc, object⟩])) := by
  have hres : GetLayerDataPtr w dispatch_key = (w, dd) := by
    rw [GetLayerDataPtr, hk]
  constructor
  · intro hown hswap
    by_cases hnull : na = true ∧ object = VK_NULL_HANDLE
    · rw [ValidateObject, if_pos hnull]
    · rw [ValidateObject, if_neg hnull, if_neg (by decide), hres]
      dsimp only
      rw [hown]
      rw [if_neg (by simp), if_pos ⟨rfl, hswap⟩]
  · intro hty hdev hna _ habs
    exact validateObject_not_found w dispatch_key object ty na ihc wdc dd
      hna hdev hk (fun p hp => ⟨habs p hp, fun hi => absurd hi hty⟩)

/-- Claim C8 witness: in w2, image 7 is aliased by owner 1's swapchain
map and owned outright by owner 2, yet owner 1 validates it as its own
with no diagnostic; in w3, queue 7 with the same alias entry is still
rejected as not found. -/
theorem claim_C8_witness :
    assocFind w2 1 = some ldSwap ∧
    (assocFind (ldSwap.objdata.swapchainImageMap) 7).isSome = true ∧
    ValidateObject w2 1 7 kVulkanObjectTypeImage false
        "VUID-invalid-image" "VUID-wrong-device" = (w2, false, []) ∧
    ValidateObject w3 1 7 kVulkanObjectTypeQueue false
        "VUID-invalid-queue" "VUID-wrong-device" =
      (w3, ldSwap.report_data.verdict VkDebugReportFlag.error "VUID-invalid-queue",
        [⟨VkDebugReportFlag.error, "VUID-invalid-queue", 7⟩]) :=
  ⟨rfl, by decide,
    (claim_C8 w2 1 7 kVulkanObjectTypeQueue false
        "VUID-invalid-image" "VUID-wrong-device" ldSwap rfl).1
      (by decide) (by decide),
    (claim_C8 w3 1 7 kVulkanObjectTypeQueue false
        "VUID-invalid-queue" "VUID-wrong-device" ldSwap rfl).2
      (by decide) (by decide) (by decide) (by decide) (by decide)⟩

theorem GetLayerDataPtr_of_some {w : World} {key : Nat} {dd : layer_data}
    (hk : assocFind w key = some dd) : GetLayerDataPtr w key = (w, dd) := by
  rw [GetLayerDataPtr, hk]

theorem GetLayerDataPtr_fst_find (w : World) (key key' : Nat) (dd' : layer_data)
    (h : assocFind w key' = some dd') :
    assocFind (GetLayerDataPtr w key).1 key' = some dd' := by
  rw [GetLayerDataPtr]
  cases hk : assocFind w key with
  | some dd => exact h
  | none =>
      dsimp only
      rw [assocFind_append_of_isSome (by rw [h]; rfl)]
      exact h

theorem validateObject_fst_find (w : World) (dispatch_key object : Nat)
    (ty : VulkanObjectType) (na : Bool) (ihc wdc : String) (key' : Nat)
    (dd' : layer_data) (h : assocFind w key' = some dd') :
    assocFind (ValidateObject w dispatch_key object ty na ihc wdc).1 key' = some dd' := by
  rw [ValidateObject]
  split
  · exact h
  · split
    · exact h
    · dsimp only
      split
      · exact GetLayerDataPtr_fst_find w dispatch_key key' dd' h
      · split
        · exact GetLayerDataPtr_fst_find w dispatch_key key' dd' h
        · exact GetLayerDataPtr_fst_find w dispatch_key key' dd' h

/-- Claim C9: ValidateObject and ValidateDestroyObject never mutate any
owner's state — on a resolvable dispatch key the owner map they return
is exactly the one they were given, and unconditionally every owner
present before the call is found afterwards with identical data (their
only effect is the returned verdict and the emitted diagnostics). -/
theorem claim_C9 (w : World) (dispatch_key object : Nat) (ty : VulkanObjectType)
    (na ca : Bool) (ihc wdc ecac edac : String) :
    (∀ dd, assocFind w dispatch_key = some dd →
      (ValidateObject w dispatch_key object ty na ihc wdc).1 = w ∧
      (ValidateDestroyObjectW w dispatch_key object ty ca ecac edac).1 = w) ∧
    (∀ key' dd', assocFind w key' = some dd' →
      assocFind (ValidateObject w dispatch_key object ty na ihc wdc).1 key' = some dd' ∧
      assocFind (ValidateDestroyObjectW w dispatch_key object ty ca ecac edac).1 key' =
        some dd') := by
  constructor
  · intro dd hk
    constructor
    · rw [ValidateObject, GetLayerDataPtr_of_some hk]
      dsimp only
      split
      · rfl
      · split
        · rfl
        · split
          · rfl
          · split
            · rfl
            · rfl
    · rw [ValidateDestroyObjectW, GetLayerDataPtr_of_some hk]
  · intro key' dd' h
    constructor
    · exact validateObject_fst_find w dispatch_key object ty na ihc wdc key' dd' h
    · rw [ValidateDestroyObjectW]
      dsimp only
      exact GetLayerDataPtr_fst_find w dispatch_key key' dd' h

/-- Claim C9 witness: both validators applied in the two-owner world w1
leave it intact, and owner 2 is still found unchanged afterwards. -/
theorem claim_C9_witness :
    assocFind w1 1 = some ldEmptyTrue ∧
    (ValidateObject w1 1 7 kVulkanObjectTypeQueue false "VUID-a" "VUID-b").1 = w1 ∧
    (ValidateDestroyObjectW w1 1 7 kVulkanObjectTypeQueue false "VUID-c" "VUID-d").1 = w1 ∧
    assocFind (ValidateObject w1 1 7 kVulkanObjectTypeQueue false "VUID-a" "VUID-b").1 2 =
      some ldOther :=
  ⟨rfl,
    ((claim_C9 w1 1 7 kVulkanObjectTypeQueue false false
        "VUID-a" "VUID-b" "VUID-c" "VUID-d").1 ldEmptyTrue rfl).1,
    ((claim_C9 w1 1 7 kVulkanObjectTypeQueue false false
        "VUID-a" "VUID-b" "VUID-c" "VUID-d").1 ldEmptyTrue rfl).2,
    ((claim_C9 w1 1 7 kVulkanObjectTypeQueue false false
        "VUID-a" "VUID-b" "VUID-c" "VUID-d").2 2 ldOther rfl).1⟩

end object_tracker
